import Mathlib

/-!
Verification development for the youtube-transcripts-bot repository.

The repository has two Python files:
  * `main.py` — ingestion: reads a Google Sheet of video URLs, extracts the
    video id, fetches title/channel and transcript, creates a Google Doc,
    and writes a status cell back into the sheet row.
  * `app.py` — retrieval: a Flask app exposing `GET /transcripts` and
    `GET /transcript/<doc_id>` that read Google Docs from a Drive folder.

The external services (Sheets, Docs, Drive, the transcript provider) are
modelled as an explicit environment of oracle functions; an `Option` result
with value `none` models a raised exception at the corresponding call.
All local computation (regex search, string stripping, joining, response
construction) is translated faithfully from the Python source.
-/

namespace YTBot

/-! ### Python string primitives -/

/-- Characters treated as whitespace by Python `str.strip()` (the ASCII
whitespace set: space, tab, newline, carriage return, vertical tab, form feed). -/
def isPyWs (c : Char) : Bool :=
  c = ' ' || c = '\t' || c = '\n' || c = '\r' || c = Char.ofNat 11 || c = Char.ofNat 12

/-- List-level model of Python `str.strip()`: drop whitespace from both ends. -/
def pyStripL (cs : List Char) : List Char :=
  ((cs.dropWhile isPyWs).reverse.dropWhile isPyWs).reverse

/-- Python `str.strip()` on strings. -/
def pyStrip (s : String) : String :=
  String.mk (pyStripL s.data)

/-- Python string join `sep.join(xs)`: empty string on an empty list, else fold the
separator between consecutive elements. -/
def pyJoin (sep : String) : List String → String
  | [] => ""
  | s :: rest => rest.foldl (fun acc x => acc ++ sep ++ x) s

/-! ### main.py : configuration constants -/

/-- Column index of the URL (column A), from `URL_COLUMN_INDEX = 0`. -/
def URL_COLUMN_INDEX : Nat := 0

/-- Column index of the processed marker (column B), from `PROCESSED_COLUMN_INDEX = 1`. -/
def PROCESSED_COLUMN_INDEX : Nat := 1

/-! ### main.py : extract_video_id

The Python code applies `re.search` with pattern `(?:v=|\/)([0-9A-Za-z_-]{11}).*`.
`re.search` scans start positions left to right; at each position the
alternation tries `v=` then `/`, followed by exactly 11 characters of the
class `[0-9A-Za-z_-]`; the trailing `.*` always succeeds. -/

/-- Membership in the regex character class `[0-9A-Za-z_-]`. -/
def isIdChar (c : Char) : Bool :=
  c.isAlphanum || c = '_' || c = '-'

/-- Match `[0-9A-Za-z_-]{11}` at the head of `cs`, returning the 11 matched
characters. -/
def idToken (cs : List Char) : Option (List Char) :=
  if (cs.take 11).length = 11 ∧ (cs.take 11).all isIdChar then some (cs.take 11)
  else none

/-- Match the whole pattern `(?:v=|\/)([0-9A-Za-z_-]{11})` anchored at the
head of `cs`, returning the capture group. -/
def matchAt (cs : List Char) : Option (List Char) :=
  match cs with
  | [] => none
  | c :: rest =>
    if c = 'v' then
      match rest with
      | [] => none
      | c2 :: rest2 => if c2 = '=' then idToken rest2 else none
    else if c = '/' then idToken rest
    else none

/-- Leftmost search, as `re.search` does: try each start position in order. -/
def searchVid : List Char → Option (List Char)
  | [] => none
  | c :: rest =>
    match matchAt (c :: rest) with
    | some t => some t
    | none => searchVid rest

/-- Model of `extract_video_id` from `main.py`: `re.search` the pattern and
return the capture group, or `None` when there is no match. -/
def extract_video_id (url : String) : Option String :=
  (searchVid url.data).map String.mk

/-- The token `t` occurs in `cs` immediately after `v=` or after `/`. -/
def tokenOccurs (t cs : List Char) : Prop :=
  ∃ pre suf, cs = pre ++ 'v' :: '=' :: (t ++ suf) ∨ cs = pre ++ '/' :: (t ++ suf)

/-- The string contains an 11-character `[0-9A-Za-z_-]` token preceded by
`v=` or `/` — the spec's description of a matching URL. -/
def hasVidToken (cs : List Char) : Prop :=
  ∃ t, t.length = 11 ∧ t.all isIdChar ∧ tokenOccurs t cs

/-! ### Lemmas about extract_video_id -/

theorem idToken_sound {cs t : List Char} (h : idToken cs = some t) :
    t.length = 11 ∧ t.all isIdChar ∧ cs = t ++ cs.drop 11 := by
  unfold idToken at h
  split at h
  · rename_i hc
    cases h
    exact ⟨hc.1, hc.2, (List.take_append_drop 11 cs).symm⟩
  · exact absurd h (by simp)

theorem idToken_complete {t : List Char} (suf : List Char)
    (hlen : t.length = 11) (hall : t.all isIdChar) :
    idToken (t ++ suf) = some t := by
  have htake : (t ++ suf).take 11 = t := by
    rw [← hlen]
    exact List.take_left t suf
  unfold idToken
  rw [htake]
  simp [hlen, hall]

theorem matchAt_sound {cs t : List Char} (h : matchAt cs = some t) :
    t.length = 11 ∧ t.all isIdChar ∧
      ((∃ suf, cs = 'v' :: '=' :: (t ++ suf)) ∨ (∃ suf, cs = '/' :: (t ++ suf))) := by
  unfold matchAt at h
  match cs, h with
  | c :: rest, h =>
    by_cases hv : c = 'v'
    · subst hv
      simp only [if_pos rfl] at h
      match rest, h with
      | c2 :: rest2, h =>
        by_cases he : c2 = '='
        · subst he
          simp only [if_pos rfl] at h
          obtain ⟨h1, h2, h3⟩ := idToken_sound h
          exact ⟨h1, h2, Or.inl ⟨rest2.drop 11, by rw [← h3]⟩⟩
        · simp [he] at h
    · simp only [if_neg hv] at h
      by_cases hs : c = '/'
      · subst hs
        simp only [if_pos rfl] at h
        obtain ⟨h1, h2, h3⟩ := idToken_sound h
        exact ⟨h1, h2, Or.inr ⟨rest.drop 11, by rw [← h3]⟩⟩
      · simp [hs] at h

theorem matchAt_complete_v {t : List Char} (suf : List Char)
    (hlen : t.length = 11) (hall : t.all isIdChar) :
    matchAt ('v' :: '=' :: (t ++ suf)) = some t := by
  unfold matchAt
  simp [idToken_complete suf hlen hall]

theorem matchAt_complete_slash {t : List Char} (suf : List Char)
    (hlen : t.length = 11) (hall : t.all isIdChar) :
    matchAt ('/' :: (t ++ suf)) = some t := by
  unfold matchAt
  simp [idToken_complete suf hlen hall]

theorem searchVid_of_matchAt {cs : List Char} (h : (matchAt cs).isSome) :
    (searchVid cs).isSome := by
  match cs with
  | [] => simp [matchAt] at h
  | c :: rest =>
    unfold searchVid
    cases hm : matchAt (c :: rest) with
    | some t => simp
    | none => rw [hm] at h; simp at h

theorem searchVid_append {rest : List Char} (pre : List Char)
    (h : (searchVid rest).isSome) : (searchVid (pre ++ rest)).isSome := by
  induction pre with
  | nil => simpa using h
  | cons c pre ih =>
    show (searchVid (c :: (pre ++ rest))).isSome
    unfold searchVid
    cases hm : matchAt (c :: (pre ++ rest)) with
    | some t => simp
    | none => simpa using ih

theorem searchVid_sound {cs t : List Char} (h : searchVid cs = some t) :
    t.length = 11 ∧ t.all isIdChar ∧ tokenOccurs t cs := by
  induction cs with
  | nil => simp [searchVid] at h
  | cons c rest ih =>
    unfold searchVid at h
    cases hm : matchAt (c :: rest) with
    | some t2 =>
      rw [hm] at h
      cases h
      obtain ⟨h1, h2, h3⟩ := matchAt_sound hm
      refine ⟨h1, h2, ?_⟩
      rcases h3 with ⟨suf, hsuf⟩ | ⟨suf, hsuf⟩
      · exact ⟨[], suf, Or.inl hsuf⟩
      · exact ⟨[], suf, Or.inr hsuf⟩
    | none =>
      rw [hm] at h
      obtain ⟨h1, h2, pre, suf, h3⟩ := ih h
      refine ⟨h1, h2, c :: pre, suf, ?_⟩
      rcases h3 with h3 | h3
      · exact Or.inl (by rw [h3]; rfl)
      · exact Or.inr (by rw [h3]; rfl)

theorem searchVid_complete {cs : List Char} (h : hasVidToken cs) :
    (searchVid cs).isSome := by
  obtain ⟨t, hlen, hall, pre, suf, hocc⟩ := h
  rcases hocc with hocc | hocc
  · subst hocc
    refine searchVid_append pre ?_
    exact searchVid_of_matchAt (by rw [matchAt_complete_v suf hlen hall]; rfl)
  · subst hocc
    refine searchVid_append pre ?_
    exact searchVid_of_matchAt (by rw [matchAt_complete_slash suf hlen hall]; rfl)

/-- C1: for every URL containing an 11-character `[0-9A-Za-z_-]` token right
after `v=` or `/`, `extract_video_id` returns such an 11-character token of
the URL; for every URL containing no such token it returns `None`
(any token it returns really is 11 characters of the class occurring after
`v=` or `/` in the URL, a matching URL never yields failure, and a `None`
answer implies the URL has no such token). -/
theorem extract_video_id_correct (url : String) :
    (∀ t, extract_video_id url = some t →
      t.data.length = 11 ∧ t.data.all isIdChar ∧ tokenOccurs t.data url.data)
    ∧ (hasVidToken url.data → (extract_video_id url).isSome)
    ∧ (extract_video_id url = none → ¬ hasVidToken url.data) := by
  refine ⟨?_, ?_, ?_⟩
  · intro t ht
    unfold extract_video_id at ht
    rw [Option.map_eq_some'] at ht
    obtain ⟨l, hl, hmk⟩ := ht
    have hdata : t.data = l := by rw [← hmk]
    rw [hdata]
    exact searchVid_sound hl
  · intro h
    unfold extract_video_id
    rw [Option.isSome_map']
    exact searchVid_complete h
  · intro hnone h
    have : (extract_video_id url).isSome := by
      unfold extract_video_id
      rw [Option.isSome_map']
      exact searchVid_complete h
    rw [hnone] at this
    simp at this

/-- Witness for C1: a URL carrying the token `aaaaaaaaaaa` after a slash
yields exactly that token, and a URL with no token yields `None`. -/
theorem extract_video_id_correct_witness :
    (("aaaaaaaaaaa" : String).data.length = 11 ∧
      ("aaaaaaaaaaa" : String).data.all isIdChar ∧
      tokenOccurs ("aaaaaaaaaaa" : String).data
        ("https://youtu.be/aaaaaaaaaaa" : String).data) ∧
    ¬ hasVidToken ("https://example.com" : String).data :=
  ⟨(extract_video_id_correct "https://youtu.be/aaaaaaaaaaa").1 "aaaaaaaaaaa" (by decide),
   (extract_video_id_correct "https://example.com").2.2 (by decide)⟩

/-! ### main.py : ingestion flow

External services are an environment of oracles; `none` models a raised
exception inside the corresponding `try` block of the Python code. -/

/-- Entry of the list returned by `YouTubeTranscriptApi.get_transcript`:
a dict whose `text` field is the fragment text. -/
structure TranscriptItem where
  text : String
deriving DecidableEq

/-- Oracles for the external services used by `main.py`. -/
structure MainEnv where
  /-- Sheets `values().get` for the `A:B` range: `none` models an exception,
  otherwise the list of rows (each a list of cell strings). -/
  getValues : Option (List (List String))
  /-- The pytube `YouTube(url)` object: `(title, author)`, `none` on exception. -/
  pytube : String → Option (String × String)
  /-- The transcript provider: the segment list for a video id, `none` when
  any of the provider exceptions is raised. -/
  fetchTranscript : String → Option (List TranscriptItem)
  /-- The Docs/Drive create–insert–move sequence of `create_google_doc`:
  the new document id, `none` when any step raises. -/
  createDoc : String → String → Option String

/-- Model of `get_video_info` from `main.py`: `(title, author)` from pytube,
or `(None, None)` when the lookup raises. -/
def get_video_info (env : MainEnv) (url : String) : Option String × Option String :=
  match env.pytube url with
  | some (title, channel) => (some title, some channel)
  | none => (none, none)

/-- Model of `get_transcript` from `main.py`: fetch the segment list and join
the `text` fields with `"\n"`; `None` when the provider raises. -/
def get_transcript (env : MainEnv) (videoId : String) : Option String :=
  match env.fetchTranscript videoId with
  | some items => some (pyJoin "\n" (items.map TranscriptItem.text))
  | none => none

/-- Model of `create_google_doc` from `main.py`: the create–insert–move remote
sequence, returning the document id or `None` on failure. -/
def create_google_doc (env : MainEnv) (docTitle content : String) : Option String :=
  env.createDoc docTitle content

/-- Python truthiness of an optional string: `None` and `""` are falsy. -/
def pyTruthyOpt : Option String → Bool
  | none => false
  | some s => !(s == "")

/-- Observable steps taken by the ingestion driver for the rows it visits. -/
inductive Action where
  | extractId (url : String)
  | fetchInfo (url : String)
  | fetchTranscript (videoId : String)
  | createDoc (docTitle content : String)
  | updateRow (rowIndex : Nat) (status : String)
deriving DecidableEq

/-- Steps of `process_sheet` after a document title, channel and transcript
have been obtained: create the doc and write the row status. -/
def processDoc (env : MainEnv) (index : Nat) (docTitle content : String) : List Action :=
  Action.createDoc docTitle content ::
    match create_google_doc env docTitle content with
    | some _ => [Action.updateRow index "Processed"]
    | none => [Action.updateRow index "Error: Doc creation failed"]

/-- Steps of `process_sheet` after the video id is known: check the pytube
info (Python `if not title or not channel`), then the transcript (Python
`if not transcript`), then hand over to document creation. -/
def processInfo (env : MainEnv) (index : Nat) (videoId : String)
    (title? channel? : Option String) : List Action :=
  if pyTruthyOpt title? && pyTruthyOpt channel? then
      Action.fetchTranscript videoId ::
        match get_transcript env videoId with
        | some transcript =>
          if transcript = "" then [Action.updateRow index "Error: No transcript found"]
          else
            processDoc env index (title?.getD "")
              ("Title: " ++ title?.getD "" ++ "\nChannel: " ++ channel?.getD "" ++
                "\n\nTranscript:\n" ++ transcript)
        | none => [Action.updateRow index "Error: No transcript found"]
    else [Action.updateRow index "Error: Unable to retrieve video info"]

/-- Steps of `process_sheet` for a row whose stripped URL is non-empty:
extract the video id, then fetch info, transcript, and create the document. -/
def processUrl (env : MainEnv) (index : Nat) (url : String) : List Action :=
  Action.extractId url ::
    match extract_video_id url with
    | none => [Action.updateRow index "Error: Invalid URL"]
    | some videoId =>
      Action.fetchInfo url ::
        processInfo env index videoId (get_video_info env url).1 (get_video_info env url).2

/-- Per-row body of the `for index, row in enumerate(rows)` loop of
`process_sheet`: skip rows whose processed cell (index 1) is non-empty after
stripping, skip rows with no (or an all-whitespace) URL, else process the URL.
(Python computes `url = row[0].strip() if len(row) > 0 else None` and skips
when `not url`; the two skip cases are merged into one test here.) -/
def processRow (env : MainEnv) (index : Nat) (row : List String) : List Action :=
  if row.length > PROCESSED_COLUMN_INDEX ∧ pyStrip (row.getD PROCESSED_COLUMN_INDEX "") ≠ "" then
    []
  else if row.length > URL_COLUMN_INDEX ∧ pyStrip (row.getD URL_COLUMN_INDEX "") ≠ "" then
    processUrl env index (pyStrip (row.getD URL_COLUMN_INDEX ""))
  else []

/-- Model of `process_sheet` from `main.py`: read the sheet values, return
early when fewer than two rows (header only or nothing), else run the per-row
loop over `values[1:]` with 0-based data-row indices. The result is the
sequence of observable steps. -/
def process_sheet (env : MainEnv) : List Action :=
  match env.getValues with
  | none => []
  | some values =>
    if values.length < 2 then []
    else ((values.drop 1).enum.map (fun p => processRow env p.1 p.2)).flatten

/-- Record of the single `values().update` call made by `update_sheet_row`:
the A1-notation target range and the written value matrix. -/
structure SheetWrite where
  range : String
  values : List (List String)
deriving DecidableEq

/-- Model of `update_sheet_row` from `main.py`: the cell is
`chr(ord('A') + PROCESSED_COLUMN_INDEX)` followed by `row_index + 2`, and the
body is the single value `[[status]]`. -/
def update_sheet_row (rowIndex : Nat) (status : String) : SheetWrite :=
  ⟨String.mk [Char.ofNat ('A'.toNat + PROCESSED_COLUMN_INDEX)] ++ toString (rowIndex + 2),
   [[status]]⟩

/-! ### Claims C2, C3, C8, C9 -/

/-- C2: a row whose status cell (column index 1) is non-empty after stripping
contributes no actions at all to the driver run — no id extraction, no
provider call, no document creation and no status write — and the whole run
is just the concatenation of the per-row action lists, so re-running never
reprocesses such a row. -/
theorem process_sheet_skips_processed (env : MainEnv) (values : List (List String))
    (i : Nat) (row : List String)
    (hv : env.getValues = some values)
    (hrow : (values.drop 1).get? i = some row)
    (hlen : row.length > PROCESSED_COLUMN_INDEX)
    (hstatus : pyStrip (row.getD PROCESSED_COLUMN_INDEX "") ≠ "") :
    processRow env i row = [] ∧
      process_sheet env = ((values.drop 1).enum.map (fun p => processRow env p.1 p.2)).flatten := by
  constructor
  · unfold processRow
    rw [if_pos ⟨hlen, hstatus⟩]
  · have hi : i < (values.drop 1).length := (List.get?_eq_some.mp hrow).1
    have h2 : ¬ values.length < 2 := by
      rw [List.length_drop] at hi
      omega
    unfold process_sheet
    rw [hv]
    exact if_neg h2

/-- Demo environment: a sheet with a header row and one already-processed
row, pytube info available, transcript provider failing. -/
def envDemo : MainEnv :=
  ⟨some [["URL", "Status"], ["x", "done"]], fun _ => some ("T", "C"),
    fun _ => none, fun _ _ => some "doc1"⟩

/-- Witness for C2: the row `["x", "done"]` carries status `"done"` and
contributes no actions. -/
theorem process_sheet_skips_processed_witness :
    processRow envDemo 0 ["x", "done"] = [] ∧
      process_sheet envDemo =
        ((([["URL", "Status"], ["x", "done"]] : List (List String)).drop 1).enum.map
          (fun p => processRow envDemo p.1 p.2)).flatten :=
  process_sheet_skips_processed envDemo [["URL", "Status"], ["x", "done"]] 0 ["x", "done"]
    rfl rfl (by decide) (by decide)

/-- C3: when a row reaches transcript retrieval and `get_transcript` fails
(returns `None`), the driver's actions for that row are exactly id
extraction, info fetch, the failed transcript fetch, and the error status
write `"Error: No transcript found"` — in particular no document-creation
call occurs for that row. -/
theorem processRow_transcript_failure (env : MainEnv) (index : Nat) (row : List String)
    (url videoId : String)
    (hskip : ¬ (row.length > PROCESSED_COLUMN_INDEX ∧
      pyStrip (row.getD PROCESSED_COLUMN_INDEX "") ≠ ""))
    (hlen : row.length > URL_COLUMN_INDEX)
    (hurl : pyStrip (row.getD URL_COLUMN_INDEX "") = url)
    (hne : url ≠ "")
    (hvid : extract_video_id url = some videoId)
    (htitle : pyTruthyOpt (get_video_info env url).1 = true)
    (hchan : pyTruthyOpt (get_video_info env url).2 = true)
    (htr : get_transcript env videoId = none) :
    processRow env index row =
      [Action.extractId url, Action.fetchInfo url, Action.fetchTranscript videoId,
        Action.updateRow index "Error: No transcript found"] ∧
      ∀ t c, Action.createDoc t c ∉ processRow env index row := by
  have h1 : processRow env index row = processUrl env index url := by
    unfold processRow
    rw [if_neg hskip, hurl, if_pos ⟨hlen, hne⟩]
  have h3 : processInfo env index videoId (get_video_info env url).1 (get_video_info env url).2 =
      [Action.fetchTranscript videoId, Action.updateRow index "Error: No transcript found"] := by
    unfold processInfo
    rw [if_pos (by rw [htitle, hchan]; rfl), htr]
  have h2 : processRow env index row =
      [Action.extractId url, Action.fetchInfo url, Action.fetchTranscript videoId,
        Action.updateRow index "Error: No transcript found"] := by
    rw [h1]
    unfold processUrl
    rw [hvid]
    show Action.extractId url :: Action.fetchInfo url ::
        processInfo env index videoId (get_video_info env url).1 (get_video_info env url).2 =
      [Action.extractId url, Action.fetchInfo url, Action.fetchTranscript videoId,
        Action.updateRow index "Error: No transcript found"]
    rw [h3]
  refine ⟨h2, ?_⟩
  intro t c hmem
  rw [h2] at hmem
  simp at hmem

/-- Witness for C3: in `envDemo` the transcript provider always fails; the
row `["/aaaaaaaaaaa"]` reaches transcript retrieval, gets the error status,
and triggers no document creation. -/
theorem processRow_transcript_failure_witness :
    processRow envDemo 0 ["/aaaaaaaaaaa"] =
      [Action.extractId "/aaaaaaaaaaa", Action.fetchInfo "/aaaaaaaaaaa",
        Action.fetchTranscript "aaaaaaaaaaa", Action.updateRow 0 "Error: No transcript found"] ∧
      ∀ t c, Action.createDoc t c ∉ processRow envDemo 0 ["/aaaaaaaaaaa"] :=
  processRow_transcript_failure envDemo 0 ["/aaaaaaaaaaa"] "/aaaaaaaaaaa" "aaaaaaaaaaa"
    (by decide) (by decide) (by decide) (by decide) (by decide) (by decide) (by decide)
    (by decide)

/-- Newline-separated concatenation as the spec describes it: the segments
in order with a `"\n"` between consecutive segments. -/
def newlineConcat : List String → String
  | [] => ""
  | [s] => s
  | s :: s2 :: rest => s ++ "\n" ++ newlineConcat (s2 :: rest)

theorem string_append_assoc (a b c : String) : a ++ b ++ c = a ++ (b ++ c) := by
  obtain ⟨la⟩ := a
  obtain ⟨lb⟩ := b
  obtain ⟨lc⟩ := c
  show String.mk (la ++ lb ++ lc) = String.mk (la ++ (lb ++ lc))
  rw [List.append_assoc]

theorem newlineConcat_glue (s x : String) (xs : List String) :
    newlineConcat ((s ++ "\n" ++ x) :: xs) = s ++ "\n" ++ newlineConcat (x :: xs) := by
  cases xs with
  | nil => rfl
  | cons y ys =>
    show (s ++ "\n" ++ x) ++ "\n" ++ newlineConcat (y :: ys) =
      s ++ "\n" ++ (x ++ "\n" ++ newlineConcat (y :: ys))
    simp only [string_append_assoc]

theorem foldl_newline (s : String) (rest : List String) :
    rest.foldl (fun acc x => acc ++ "\n" ++ x) s = newlineConcat (s :: rest) := by
  induction rest generalizing s with
  | nil => rfl
  | cons x xs ih =>
    show xs.foldl (fun acc x => acc ++ "\n" ++ x) (s ++ "\n" ++ x) = newlineConcat (s :: x :: xs)
    rw [ih (s ++ "\n" ++ x), newlineConcat_glue]
    rfl

/-- C8: when the provider returns a segment list, `get_transcript` returns
exactly the segments' `text` fields in provider order joined with a newline
between consecutive segments. -/
theorem get_transcript_joins_segments (env : MainEnv) (videoId : String)
    (items : List TranscriptItem)
    (h : env.fetchTranscript videoId = some items) :
    get_transcript env videoId = some (newlineConcat (items.map TranscriptItem.text)) := by
  unfold get_transcript
  rw [h]
  show some (pyJoin "\n" (items.map TranscriptItem.text)) =
    some (newlineConcat (items.map TranscriptItem.text))
  congr 1
  cases hl : items.map TranscriptItem.text with
  | nil => rfl
  | cons s rest => exact foldl_newline s rest

/-- Demo environment for the provider-success path: two transcript segments. -/
def envDemo2 : MainEnv :=
  ⟨some [], fun _ => none, fun _ => some [⟨"hello"⟩, ⟨"world"⟩], fun _ _ => none⟩

/-- Witness for C8: two segments `"hello"`, `"world"` join to the
newline-separated concatenation. -/
theorem get_transcript_joins_segments_witness :
    get_transcript envDemo2 "v123" =
      some (newlineConcat (([⟨"hello"⟩, ⟨"world"⟩] : List TranscriptItem).map
        TranscriptItem.text)) :=
  get_transcript_joins_segments envDemo2 "v123" [⟨"hello"⟩, ⟨"world"⟩] rfl

/-- C9: the status update writes the single value `[[status]]` into the one
cell at column B (from processed-column index 1) and spreadsheet row
`rowIndex + 2`, accounting for the header row and 1-based indexing. -/
theorem update_sheet_row_writes_single_cell (rowIndex : Nat) (status : String) :
    update_sheet_row rowIndex status = ⟨"B" ++ toString (rowIndex + 2), [[status]]⟩ := by
  have h : String.mk [Char.ofNat ('A'.toNat + PROCESSED_COLUMN_INDEX)] = "B" := by decide
  unfold update_sheet_row
  rw [h]

/-! ### app.py : retrieval flow

The Flask handlers return a pair of an HTTP status and a JSON body. -/

/-- JSON values, used for the response bodies produced by `jsonify`. -/
inductive Json where
  | null
  | str (s : String)
  | arr (xs : List Json)
  | obj (fields : List (String × Json))

/-- Element of a Docs paragraph carrying a `textRun` with its `content`
string, as read by `get_text_from_doc`. -/
structure TextRun where
  content : String
deriving DecidableEq

/-- Element of a paragraph: either a `textRun` or something else (skipped). -/
inductive ParaElem where
  | run (r : TextRun)
  | other
deriving DecidableEq

/-- Structural element of the document body: either a `paragraph` with its
elements or something else (skipped). -/
inductive StructElem where
  | paragraph (elems : List ParaElem)
  | other
deriving DecidableEq

/-- Entry of the Drive `files().list` response: file id and name. -/
structure DriveFile where
  id : String
  name : String
deriving DecidableEq

/-- Oracles for the external services used by `app.py`. -/
structure AppEnv where
  /-- The configured `DOCS_FOLDER_ID`. -/
  folderId : String
  /-- Docs `documents().get`: body content of a document, `none` on exception. -/
  getDoc : String → Option (List StructElem)
  /-- Drive `files().list` for a folder query: `none` on exception. -/
  listDocs : String → Option (List DriveFile)
  /-- Drive `files().get` for the file name: `none` when the call raises or
  the response has no name. -/
  getFileName : String → Option String

/-- Text contributed by one paragraph element: the `textRun` content, or
nothing for other elements. -/
def runContent : ParaElem → String
  | ParaElem.run r => r.content
  | ParaElem.other => ""

/-- Inner loop of `get_text_from_doc`: accumulate the `textRun` contents of
the paragraph's elements. -/
def paraText (elems : List ParaElem) : String :=
  elems.foldl (fun acc e => acc ++ runContent e) ""

/-- Text contributed by one structural element: the paragraph text, or
nothing for non-paragraph elements. -/
def structText : StructElem → String
  | StructElem.paragraph elems => paraText elems
  | StructElem.other => ""

/-- Outer loop of `get_text_from_doc`: accumulate over the body content. -/
def extractText (content : List StructElem) : String :=
  content.foldl (fun acc e => acc ++ structText e) ""

/-- Model of `get_text_from_doc` from `app.py`: concatenate all `textRun`
contents of all paragraphs and strip the result; `None` when the Docs call
raises. -/
def get_text_from_doc (env : AppEnv) (docId : String) : Option String :=
  match env.getDoc docId with
  | some content => some (pyStrip (extractText content))
  | none => none

/-- Model of `list_docs_in_folder` from `app.py`: the files in the folder,
or the empty list when the Drive call raises. -/
def list_docs_in_folder (env : AppEnv) (folderId : String) : List DriveFile :=
  (env.listDocs folderId).getD []

/-- Loop of `get_transcripts`: build the record list, keeping only documents
with truthy (non-`None`, non-empty) content. -/
def transcriptsList (env : AppEnv) (docs : List DriveFile) : List Json :=
  docs.foldl
    (fun acc doc =>
      match get_text_from_doc env doc.id with
      | some content =>
        if content = "" then acc
        else
          acc ++ [Json.obj [("doc_id", Json.str doc.id), ("title", Json.str doc.name),
            ("content", Json.str content)]]
      | none => acc)
    []

/-- Model of the `GET /transcripts` handler from `app.py`: list the folder
and return the record list as a JSON array with status 200. -/
def get_transcripts (env : AppEnv) : Nat × Json :=
  (200, Json.arr (transcriptsList env (list_docs_in_folder env env.folderId)))

/-- Model of the `GET /transcript/<doc_id>` handler from `app.py`: fetch the
name (falling back to `"Unknown"`), fetch the text, and answer 200 with the
record when the content is truthy, else 404 with the error body. -/
def get_single_transcript (env : AppEnv) (docId : String) : Nat × Json :=
  match get_text_from_doc env docId with
  | some content =>
    if content = "" then (404, Json.obj [("error", Json.str "Transcript not found")])
    else
      (200, Json.obj [("doc_id", Json.str docId),
        ("title", Json.str ((env.getFileName docId).getD "Unknown")),
        ("content", Json.str content)])
  | none => (404, Json.obj [("error", Json.str "Transcript not found")])

/-! ### Claims C4, C5, C7, C10 -/

theorem single_404_of_none (env : AppEnv) (docId : String)
    (h : get_text_from_doc env docId = none) :
    get_single_transcript env docId =
      (404, Json.obj [("error", Json.str "Transcript not found")]) := by
  unfold get_single_transcript
  rw [h]

theorem single_404_of_empty (env : AppEnv) (docId : String)
    (h : get_text_from_doc env docId = some "") :
    get_single_transcript env docId =
      (404, Json.obj [("error", Json.str "Transcript not found")]) := by
  unfold get_single_transcript
  rw [h]
  simp

/-- C4: when text retrieval for a document yields no retrievable content
(the read fails or produces the empty string), `GET /transcript/<id>`
answers HTTP 404 with body `{"error": "Transcript not found"}`. -/
theorem get_single_transcript_not_found (env : AppEnv) (docId : String)
    (h : get_text_from_doc env docId = none ∨ get_text_from_doc env docId = some "") :
    get_single_transcript env docId =
      (404, Json.obj [("error", Json.str "Transcript not found")]) := by
  rcases h with h | h
  · exact single_404_of_none env docId h
  · exact single_404_of_empty env docId h

/-- Environment in which every external call of the retrieval flow raises. -/
def envAppFail : AppEnv :=
  ⟨"folder", fun _ => none, fun _ => none, fun _ => none⟩

/-- Witness for C4: with the Docs call raising, the single-transcript
endpoint answers 404 with the error body. -/
theorem get_single_transcript_not_found_witness :
    get_single_transcript envAppFail "d1" =
      (404, Json.obj [("error", Json.str "Transcript not found")]) :=
  get_single_transcript_not_found envAppFail "d1" (Or.inl rfl)

/-- C5: when the folder listing is empty, `GET /transcripts` answers with
the empty JSON array (status 200), not a message object. -/
theorem get_transcripts_empty (env : AppEnv)
    (h : list_docs_in_folder env env.folderId = []) :
    get_transcripts env = (200, Json.arr []) := by
  unfold get_transcripts
  rw [h]
  rfl

/-- Environment whose folder listing succeeds and is empty. -/
def envAppEmpty : AppEnv :=
  ⟨"folder", fun _ => none, fun _ => some [], fun _ => none⟩

/-- Witness for C5: an empty folder produces the empty array response. -/
theorem get_transcripts_empty_witness :
    get_transcripts envAppEmpty = (200, Json.arr []) :=
  get_transcripts_empty envAppEmpty rfl

/-- Counterexample to C7 as stated: in `envAppFail` the folder listing
raises, yet `GET /transcripts` answers with the successful status 200 and
the empty array `[]` — not a JSON error payload with an HTTP error status
(`list_docs_in_folder` swallows the failure into `[]`). -/
theorem get_transcripts_listing_failure_counterexample :
    get_transcripts envAppFail = (200, Json.arr []) ∧
      ∀ fields, (get_transcripts envAppFail).2 ≠ Json.obj fields := by
  constructor
  · rfl
  · intro fields h
    have h2 : Json.arr [] = Json.obj fields := h
    exact Json.noConfusion h2

/-- C7 (amended): failures inside retrieval-flow operations are caught at
the boundary of the operation that produced them, but not every one becomes
an error payload: a Docs read failure makes `GET /transcript/<id>` answer
404 with the error body, while a Drive listing failure is converted by
`list_docs_in_folder` into the empty list, so `GET /transcripts` answers
with the successful empty array instead of an error payload. -/
theorem retrieval_failures_caught (env : AppEnv) :
    (env.listDocs env.folderId = none → get_transcripts env = (200, Json.arr [])) ∧
      (∀ docId, get_text_from_doc env docId = none →
        get_single_transcript env docId =
          (404, Json.obj [("error", Json.str "Transcript not found")])) := by
  constructor
  · intro h
    unfold get_transcripts list_docs_in_folder
    rw [h]
    rfl
  · intro docId h
    exact single_404_of_none env docId h

/-- Witness for C7 (amended): both failure conversions at `envAppFail`. -/
theorem retrieval_failures_caught_witness :
    get_transcripts envAppFail = (200, Json.arr []) ∧
      get_single_transcript envAppFail "d2" =
        (404, Json.obj [("error", Json.str "Transcript not found")]) :=
  ⟨(retrieval_failures_caught envAppFail).1 rfl,
   (retrieval_failures_caught envAppFail).2 "d2" rfl⟩

theorem pyStripL_eq_nil_of_all {cs : List Char} (h : cs.all isPyWs) : pyStripL cs = [] := by
  unfold pyStripL
  have h1 : cs.dropWhile isPyWs = [] := by
    rw [List.dropWhile_eq_nil_iff]
    intro x hx
    exact List.all_eq_true.mp h x hx
  rw [h1]
  rfl

/-- C10: for an existing document whose extracted body text is empty or
all-whitespace, the stripped text is `""`, which the handler treats like a
failed retrieval: `GET /transcript/<id>` answers HTTP 404 with body
`{"error": "Transcript not found"}`. -/
theorem get_single_transcript_whitespace (env : AppEnv) (docId : String)
    (content : List StructElem)
    (hdoc : env.getDoc docId = some content)
    (hws : (extractText content).data.all isPyWs) :
    get_single_transcript env docId =
      (404, Json.obj [("error", Json.str "Transcript not found")]) := by
  have hz : pyStrip (extractText content) = "" := by
    unfold pyStrip
    rw [pyStripL_eq_nil_of_all hws]
  have hget : get_text_from_doc env docId = some "" := by
    unfold get_text_from_doc
    rw [hdoc]
    show some (pyStrip (extractText content)) = some ""
    rw [hz]
  exact single_404_of_empty env docId hget

/-- Environment holding a document whose only text run is whitespace. -/
def envAppWs : AppEnv :=
  ⟨"folder", fun _ => some [StructElem.paragraph [ParaElem.run ⟨" \n"⟩]],
    fun _ => none, fun _ => some "Doc"⟩

/-- Witness for C10: a document containing only `" \n"` yields the 404
error response. -/
theorem get_single_transcript_whitespace_witness :
    get_single_transcript envAppWs "d3" =
      (404, Json.obj [("error", Json.str "Transcript not found")]) :=
  get_single_transcript_whitespace envAppWs "d3"
    [StructElem.paragraph [ParaElem.run ⟨" \n"⟩]] rfl (by decide)

/-! ### Claim C6 : create/read round-trip

`create_google_doc` (main.py) inserts the body at index 1 of a fresh
document; `get_text_from_doc` (app.py) reads it back. The document store
itself is external to the repository, so its behaviour is modelled from the
spec. -/

theorem data_append (a b : String) : (a ++ b).data = a.data ++ b.data := by
  obtain ⟨la⟩ := a
  obtain ⟨lb⟩ := b
  rfl

theorem string_data_ext {a : String} {l : List Char} (h : a.data = l) : a = String.mk l := by
  obtain ⟨la⟩ := a
  rw [← h]

/-- Split a character list at newlines (the list of paragraph texts an
inserted body produces; a trailing fragment after the last newline is the
final paragraph, and splitting never yields an empty paragraph list). -/
def splitNL : List Char → List (List Char)
  | [] => [[]]
  | c :: rest =>
    if c = '\n' then [] :: splitNL rest
    else
      match splitNL rest with
      | [] => [[c]]
      | p :: ps => (c :: p) :: ps

theorem splitNL_flatten (cs : List Char) :
    ((splitNL cs).map (fun p => p ++ ['\n'])).flatten = cs ++ ['\n'] := by
  induction cs with
  | nil => rfl
  | cons c rest ih =>
    unfold splitNL
    by_cases hc : c = '\n'
    · rw [if_pos hc, hc]
      simp only [List.map_cons, List.flatten_cons]
      rw [ih]
      rfl
    · rw [if_neg hc]
      cases hs : splitNL rest with
      | nil =>
        rw [hs] at ih
        simp only [List.map_nil, List.flatten_nil] at ih
        exact absurd ih.symm (by simp)
      | cons p ps =>
        rw [hs] at ih
        show (((c :: p) :: ps).map (fun p => p ++ ['\n'])).flatten = (c :: rest) ++ ['\n']
        simp only [List.map_cons, List.flatten_cons, List.cons_append, List.append_assoc,
          List.nil_append] at ih ⊢
        rw [ih]

/-- Modelled from the spec: the external document store (not part of this
repository) receives the `insertText` request of `create_google_doc` at
index 1 and splits the inserted body into paragraphs at newline boundaries;
each paragraph's text run carries its text followed by the paragraph's
terminating newline. -/
def createdDocBody (content : String) : List StructElem :=
  (splitNL content.data).map
    (fun p => StructElem.paragraph [ParaElem.run ⟨String.mk (p ++ ['\n'])⟩])

theorem extractText_foldl (acc : String) (ps : List (List Char)) :
    ((ps.map (fun p => StructElem.paragraph [ParaElem.run ⟨String.mk p⟩])).foldl
      (fun a e => a ++ structText e) acc).data = acc.data ++ ps.flatten := by
  induction ps generalizing acc with
  | nil => simp
  | cons p ps ih =>
    simp only [List.map_cons, List.foldl_cons]
    rw [ih]
    rw [data_append]
    have hst : (structText (StructElem.paragraph [ParaElem.run ⟨String.mk p⟩])).data = p := by
      show (("" : String) ++ String.mk p).data = p
      rw [data_append]
      rfl
    rw [hst, List.flatten_cons, List.append_assoc]

theorem extractText_runs (ps : List (List Char)) :
    (extractText (ps.map
      (fun p => StructElem.paragraph [ParaElem.run ⟨String.mk p⟩]))).data = ps.flatten := by
  unfold extractText
  rw [extractText_foldl]
  rfl

theorem extractText_createdDocBody (B : String) :
    extractText (createdDocBody B) = String.mk (B.data ++ ['\n']) := by
  apply string_data_ext
  have hbody : createdDocBody B =
      ((splitNL B.data).map (fun p => p ++ ['\n'])).map
        (fun p => StructElem.paragraph [ParaElem.run ⟨String.mk p⟩]) := by
    rw [List.map_map]
    rfl
  rw [hbody, extractText_runs, splitNL_flatten]

theorem pyStripL_append_ws (cs : List Char) (c : Char) (hc : isPyWs c) :
    pyStripL (cs ++ [c]) = pyStripL cs := by
  unfold pyStripL
  rw [List.dropWhile_append]
  by_cases h : (cs.dropWhile isPyWs).isEmpty = true
  · rw [if_pos h]
    have h1 : List.dropWhile isPyWs [c] = [] := by
      rw [List.dropWhile_cons, if_pos hc]
      rfl
    have h2 : cs.dropWhile isPyWs = [] := by
      rwa [List.isEmpty_iff] at h
    rw [h1, h2]
  · rw [if_neg h]
    rw [List.reverse_append]
    simp only [List.reverse_cons, List.reverse_nil, List.nil_append, List.singleton_append]
    rw [List.dropWhile_cons, if_pos hc]

theorem pyStrip_mk_newline (l : List Char) :
    pyStrip (String.mk (l ++ ['\n'])) = String.mk (pyStripL l) :=
  congrArg String.mk (pyStripL_append_ws l '\n' (by decide))

/-- C6: a document created with body `B` and read back via
`get_text_from_doc` yields the paragraphs of `B` rejoined with newlines —
`extractText` restores `B` followed by the document's final newline, and the
handler's `strip()` then returns `B` up to leading/trailing whitespace. -/
theorem doc_roundtrip (env : AppEnv) (docId B : String)
    (hdoc : env.getDoc docId = some (createdDocBody B)) :
    extractText (createdDocBody B) = String.mk (B.data ++ ['\n']) ∧
      get_text_from_doc env docId = some (pyStrip B) := by
  refine ⟨extractText_createdDocBody B, ?_⟩
  unfold get_text_from_doc
  rw [hdoc]
  show some (pyStrip (extractText (createdDocBody B))) = some (pyStrip B)
  rw [extractText_createdDocBody B]
  exact congrArg some (pyStrip_mk_newline B.data)

/-- Environment holding the document created from a two-line body. -/
def envAppDoc : AppEnv :=
  ⟨"folder", fun _ => some (createdDocBody "line one\nline two"),
    fun _ => none, fun _ => some "T"⟩

/-- Witness for C6: the two-line body round-trips. -/
theorem doc_roundtrip_witness :
    extractText (createdDocBody "line one\nline two") =
      String.mk (("line one\nline two" : String).data ++ ['\n']) ∧
      get_text_from_doc envAppDoc "d4" = some (pyStrip "line one\nline two") :=
  doc_roundtrip envAppDoc "d4" "line one\nline two" rfl

end YTBot
